import Mathlib

/-!
Verification of the PowerTip utility functions (src/utility.js): viewport
state tracking, scroll-delta cursor adjustment, hover testing, viewport
collision detection, flag counting, and position compensation.

Pixel quantities are modelled as `Int` (the data model declares the viewport
metrics as integer pixels).  The module-level mutable `session` object is
modelled as an explicit `Session` record threaded through the tracking
functions; DOM reads (`$window.scrollLeft()`, `$body.offset()`, ...) become
explicit arguments.
-/

namespace PowerTip

/-- Offsets record: top/left/right/bottom pixel offsets, as produced by
`computePositionCompensation`. -/
structure Offsets where
  top : Int
  left : Int
  right : Int
  bottom : Int
deriving DecidableEq, Repr

/-- The shared `session` object fields used by the utility functions. -/
structure Session where
  scrollLeft : Int
  scrollTop : Int
  windowWidth : Int
  windowHeight : Int
  currentX : Int
  currentY : Int
  positionCompensation : Offsets
  mouseTrackingActive : Bool
deriving DecidableEq, Repr

/-- Candidate CSS coordinates for the tooltip, as passed to
`getViewportCollisions`: `top`/`left` are absolute document coordinates,
`right`/`bottom` are CSS-style distances from the opposite viewport edge. -/
structure CSSCoordinates where
  top : Int
  left : Int
  right : Int
  bottom : Int
deriving DecidableEq, Repr

/-- Modelled from the spec: the `Collision` flag constants are defined outside
utility.js (in the plugin core, not part of the sources here); the spec fixes
them as the bitmask `{none=0, top=1, bottom=2, left=4, right=8}`. -/
def Collision.none : Nat := 0

/-- Modelled from the spec: top collision flag, bit value 1. -/
def Collision.top : Nat := 1

/-- Modelled from the spec: bottom collision flag, bit value 2. -/
def Collision.bottom : Nat := 2

/-- Modelled from the spec: left collision flag, bit value 4. -/
def Collision.left : Nat := 4

/-- Modelled from the spec: right collision flag, bit value 8. -/
def Collision.right : Nat := 8

/-- The CSS `position` of the body element, as read by `$body.css('position')`.
The source switches on `absolute`, `fixed` and `relative`; everything else
falls to the default branch, represented here by `static`. -/
inductive CssPosition where
  | static
  | absolute
  | fixed
  | relative
deriving DecidableEq, Repr

/-- DOM geometry of the body element read by `computePositionCompensation`:
`$body.offset()` (offsetTop/offsetLeft), `$body.position()`
(positionTop/positionLeft), `$body.outerWidth()`/`outerHeight()` (without
margin) and `$body.outerWidth(true)`/`outerHeight(true)` (with margin). -/
structure BodyGeometry where
  cssPosition : CssPosition
  offsetTop : Int
  offsetLeft : Int
  positionTop : Int
  positionLeft : Int
  outerWidth : Int
  outerHeight : Int
  outerWidthMargin : Int
  outerHeightMargin : Int
deriving DecidableEq, Repr

/-- Embedding of `computePositionCompensation(windowWidth, windowHeight)`:
for a non-statically positioned body, top/left come from `$body.offset()` and
`right`/`bottom` are computed from the margin and position data; otherwise the
zero offsets. -/
def computePositionCompensation (windowWidth windowHeight : Int)
    (g : BodyGeometry) : Offsets :=
  match g.cssPosition with
  | .absolute | .fixed | .relative =>
      { top := g.offsetTop
        left := g.offsetLeft
        right := (g.outerWidthMargin - g.outerWidth - (g.offsetLeft - g.positionLeft)) +
          (windowWidth - g.outerWidthMargin - g.positionLeft)
        bottom := (g.outerHeightMargin - g.outerHeight - g.offsetTop) +
          (windowHeight - g.outerHeightMargin - g.positionTop) }
  | .static => { top := 0, bottom := 0, left := 0, right := 0 }

/-- The DOM environment read during initialization: window scroll offsets,
window dimensions and the body geometry. -/
structure DomEnv where
  scrollLeft : Int
  scrollTop : Int
  windowWidth : Int
  windowHeight : Int
  body : BodyGeometry
deriving DecidableEq, Repr

/-- Embedding of `getViewportDimensions()`: refreshes the cached scroll
offsets, window dimensions and position compensation from the DOM. -/
def getViewportDimensions (env : DomEnv) (s : Session) : Session :=
  { s with
    scrollLeft := env.scrollLeft
    scrollTop := env.scrollTop
    windowWidth := env.windowWidth
    windowHeight := env.windowHeight
    positionCompensation :=
      computePositionCompensation env.windowWidth env.windowHeight env.body }

/-- Embedding of `trackResize()`: refreshes the window dimensions and the
position compensation; scroll offsets and cursor are untouched. -/
def trackResize (windowWidth windowHeight : Int) (g : BodyGeometry)
    (s : Session) : Session :=
  { s with
    windowWidth := windowWidth
    windowHeight := windowHeight
    positionCompensation := computePositionCompensation windowWidth windowHeight g }

/-- Embedding of `trackScroll()`: `x`/`y` are the freshly read
`$window.scrollLeft()`/`scrollTop()`; for each axis whose value changed the
cursor is shifted by the delta and the cached offset updated. -/
def trackScroll (x y : Int) (s : Session) : Session :=
  let s1 := if x ≠ s.scrollLeft then
      { s with currentX := s.currentX + (x - s.scrollLeft), scrollLeft := x }
    else s
  if y ≠ s1.scrollTop then
    { s1 with currentY := s1.currentY + (y - s1.scrollTop), scrollTop := y }
  else s1

/-- Embedding of `trackMouse(event)`: overwrites the cached cursor with the
event's page coordinates. -/
def trackMouse (pageX pageY : Int) (s : Session) : Session :=
  { s with currentX := pageX, currentY := pageY }

/-- The three event listeners hooked up by `initTracking`. -/
inductive Listener where
  | mousemove
  | resize
  | scroll
deriving DecidableEq, Repr

/-- Session state plus the list of registered event listeners. -/
structure TrackingState where
  session : Session
  listeners : List Listener
deriving DecidableEq, Repr

/-- Embedding of `initTracking()`: guarded by `session.mouseTrackingActive`;
on the first call it sets the flag, refreshes the viewport dimension cache
(once directly and once via the document-ready callback
`$(getViewportDimensions)`) and registers the mousemove/resize/scroll
listeners. -/
def initTracking (env : DomEnv) (st : TrackingState) : TrackingState :=
  if st.session.mouseTrackingActive then st
  else
    let s := { st.session with mouseTrackingActive := true }
    let s := getViewportDimensions env s
    let s := getViewportDimensions env s
    { session := s
      listeners := st.listeners ++ [.mousemove, .resize, .scroll] }

/-- Embedding of `isMouseOver(element)`: the element's document offset comes
from `element.offset()` and the width/height are derived from the bounding
client rect as `right - left` and `bottom - top`. -/
def isMouseOver (s : Session) (offsetLeft offsetTop : Int)
    (boxLeft boxTop boxRight boxBottom : Int) : Bool :=
  let elementWidth := boxRight - boxLeft
  let elementHeight := boxBottom - boxTop
  decide (s.currentX ≥ offsetLeft) &&
    decide (s.currentX ≤ offsetLeft + elementWidth) &&
    decide (s.currentY ≥ offsetTop) &&
    decide (s.currentY ≤ offsetTop + elementHeight)

/-- Embedding of `getViewportCollisions(coords, elementWidth, elementHeight)`:
computes the compensated viewport edges and ORs a flag into the accumulator
for each violated edge. -/
def getViewportCollisions (s : Session) (coords : CSSCoordinates)
    (elementWidth elementHeight : Int) : Nat :=
  let viewportTop := s.scrollTop - s.positionCompensation.top
  let viewportLeft := s.scrollLeft - s.positionCompensation.left
  let viewportBottom := viewportTop + s.windowHeight
  let viewportRight := viewportLeft + s.windowWidth
  let collisions := Collision.none
  let collisions :=
    if coords.top < viewportTop ∨
        |coords.bottom - s.windowHeight| - elementHeight < viewportTop then
      collisions ||| Collision.top
    else collisions
  let collisions :=
    if coords.top + elementHeight > viewportBottom ∨
        |coords.bottom - s.windowHeight| > viewportBottom then
      collisions ||| Collision.bottom
    else collisions
  let collisions :=
    if coords.left < viewportLeft ∨
        coords.right + elementWidth > viewportRight then
      collisions ||| Collision.left
    else collisions
  let collisions :=
    if coords.left + elementWidth > viewportRight ∨
        coords.right < viewportLeft then
      collisions ||| Collision.right
    else collisions
  collisions

/-- Embedding of `countFlags(value)`: Brian Kernighan bit count, repeatedly
clearing the lowest set bit (`value &= value - 1`) and counting iterations. -/
def countFlags (value : Nat) : Nat :=
  if h : value = 0 then 0
  else countFlags (value &&& (value - 1)) + 1
termination_by value
decreasing_by
  exact Nat.lt_of_le_of_lt Nat.and_le_right
    (Nat.sub_lt (Nat.pos_of_ne_zero h) Nat.one_pos)

/-- Reference definition of the number of set bits in the binary expansion
(binary digit sum), independent of the Kernighan loop. -/
def popCount (n : Nat) : Nat :=
  if h : n = 0 then 0
  else n % 2 + popCount (n / 2)
termination_by n
decreasing_by
  exact Nat.div_lt_self (Nat.pos_of_ne_zero h) Nat.one_lt_two

/-- Spec-side definition, following the spec's words for the collision
detector: the result is the bitwise OR of the four flags, each present
exactly when its stated rule triggers.  To be compared with the embedded
`getViewportCollisions`. -/
def specCollisionMask (s : Session) (coords : CSSCoordinates)
    (elementWidth elementHeight : Int) : Nat :=
  let viewportTop := s.scrollTop - s.positionCompensation.top
  let viewportLeft := s.scrollLeft - s.positionCompensation.left
  let viewportBottom := viewportTop + s.windowHeight
  let viewportRight := viewportLeft + s.windowWidth
  (if coords.top < viewportTop ∨
      |coords.bottom - s.windowHeight| - elementHeight < viewportTop then
    Collision.top else Collision.none) |||
  (if coords.top + elementHeight > viewportBottom ∨
      |coords.bottom - s.windowHeight| > viewportBottom then
    Collision.bottom else Collision.none) |||
  (if coords.left < viewportLeft ∨
      coords.right + elementWidth > viewportRight then
    Collision.left else Collision.none) |||
  (if coords.left + elementWidth > viewportRight ∨
      coords.right < viewportLeft then
    Collision.right else Collision.none)

/-- The viewport state of the spec's "collision none" test: zero scroll, zero
compensation, 1000x800 window. -/
def collisionDemoSession : Session :=
  { scrollLeft := 0
    scrollTop := 0
    windowWidth := 1000
    windowHeight := 800
    currentX := 0
    currentY := 0
    positionCompensation := { top := 0, left := 0, right := 0, bottom := 0 }
    mouseTrackingActive := true }

/-- The candidate box of the spec's "collision none" test. -/
def collisionDemoCoords : CSSCoordinates :=
  { top := 10, left := 10, right := 890, bottom := 780 }

end PowerTip

namespace PowerTip

/-- Claim C1: for every viewport state and candidate coordinates,
`getViewportCollisions` returns exactly the bitwise OR of the four flags
given by the spec's rules (top/bottom/left/right each set iff its pair of
inequalities against the compensated viewport edges triggers). -/
theorem getViewportCollisions_eq_specCollisionMask (s : Session)
    (coords : CSSCoordinates) (elementWidth elementHeight : Int) :
    getViewportCollisions s coords elementWidth elementHeight =
      specCollisionMask s coords elementWidth elementHeight := by
  simp only [getViewportCollisions, specCollisionMask]
  split_ifs <;> rfl

/-- Claim C2 counterexample: on the spec's "collision none" input
(zero scroll, zero compensation, 1000x800 window, box
`{top:10, left:10, right:890, bottom:780}` of size 100x100) the code does
not return `none`: the rule `|bottom - windowHeight| - elementHeight <
viewportTop` (that is, `|780 - 800| - 100 = -80 < 0`) fires. -/
theorem getViewportCollisions_demo_ne_none :
    getViewportCollisions collisionDemoSession collisionDemoCoords 100 100 ≠
      Collision.none := by
  decide

/-- Claim C2 (amended): on the spec's "collision none" input the code
returns the mask `top` (1), because `|780 - 800| - 100 = -80 < viewportTop
= 0` triggers the top flag; no other flag triggers. -/
theorem getViewportCollisions_demo_eq_top :
    getViewportCollisions collisionDemoSession collisionDemoCoords 100 100 =
      Collision.top := by
  decide

/-- Claim C8: the collision mask always lies below 16 (its set bits are only
among the four flag bits 1, 2, 4, 8), and it is zero exactly when none of
the four flag rules triggers. -/
theorem getViewportCollisions_mask_invariant (s : Session)
    (coords : CSSCoordinates) (elementWidth elementHeight : Int) :
    getViewportCollisions s coords elementWidth elementHeight < 16 ∧
    (getViewportCollisions s coords elementWidth elementHeight = 0 ↔
      ¬(coords.top < s.scrollTop - s.positionCompensation.top ∨
        |coords.bottom - s.windowHeight| - elementHeight <
          s.scrollTop - s.positionCompensation.top) ∧
      ¬(coords.top + elementHeight >
          s.scrollTop - s.positionCompensation.top + s.windowHeight ∨
        |coords.bottom - s.windowHeight| >
          s.scrollTop - s.positionCompensation.top + s.windowHeight) ∧
      ¬(coords.left < s.scrollLeft - s.positionCompensation.left ∨
        coords.right + elementWidth >
          s.scrollLeft - s.positionCompensation.left + s.windowWidth) ∧
      ¬(coords.left + elementWidth >
          s.scrollLeft - s.positionCompensation.left + s.windowWidth ∨
        coords.right < s.scrollLeft - s.positionCompensation.left)) := by
  simp only [getViewportCollisions]
  split_ifs with h1 h2 h3 h4 <;>
    simp_all [Collision.none, Collision.top, Collision.bottom,
      Collision.left, Collision.right]

/-- Claim C5: `isMouseOver` returns true iff the cached cursor x lies in
`[offset.left, offset.left + width]` and y lies in
`[offset.top, offset.top + height]`, all bounds inclusive (width and height
being derived from the bounding rect); in particular a cursor exactly on an
edge is over the element. -/
theorem isMouseOver_iff (s : Session) (offsetLeft offsetTop : Int)
    (boxLeft boxTop boxRight boxBottom : Int) :
    isMouseOver s offsetLeft offsetTop boxLeft boxTop boxRight boxBottom =
        true ↔
      (offsetLeft ≤ s.currentX ∧
       s.currentX ≤ offsetLeft + (boxRight - boxLeft) ∧
       offsetTop ≤ s.currentY ∧
       s.currentY ≤ offsetTop + (boxBottom - boxTop)) := by
  simp [isMouseOver, and_assoc]

/-- A concrete session used to instantiate the universally quantified
tracking theorems: zero scroll, inactive tracking, cursor at (7, 11). -/
def demoSession : Session :=
  { scrollLeft := 0
    scrollTop := 0
    windowWidth := 1000
    windowHeight := 800
    currentX := 7
    currentY := 11
    positionCompensation := { top := 0, left := 0, right := 0, bottom := 0 }
    mouseTrackingActive := false }

/-- A concrete DOM environment for instantiating the tracking theorems. -/
def demoEnv : DomEnv :=
  { scrollLeft := 3
    scrollTop := 4
    windowWidth := 1024
    windowHeight := 768
    body :=
      { cssPosition := .static
        offsetTop := 0, offsetLeft := 0
        positionTop := 0, positionLeft := 0
        outerWidth := 1024, outerHeight := 768
        outerWidthMargin := 1024, outerHeightMargin := 768 } }

/-- Claim C4: `trackScroll` shifts each cursor axis by the delta between the
newly read and the cached scroll offset of that axis (so an axis whose
scroll value did not change is untouched), and caches the new offsets; in
particular, when `scrollTop` moves from 0 to 50 with `scrollLeft` unchanged,
the cursor y increases by exactly 50 and the cursor x is unchanged. -/
theorem trackScroll_cursor_delta (s : Session) (x y : Int) :
    (trackScroll x y s).currentX = s.currentX + (x - s.scrollLeft) ∧
    (trackScroll x y s).currentY = s.currentY + (y - s.scrollTop) ∧
    (trackScroll x y s).scrollLeft = x ∧
    (trackScroll x y s).scrollTop = y ∧
    (s.scrollTop = 0 → y = 50 → x = s.scrollLeft →
      (trackScroll x y s).currentY = s.currentY + 50 ∧
      (trackScroll x y s).currentX = s.currentX) := by
  simp only [trackScroll]
  split_ifs with h1 h2 h2 <;> simp_all

/-- Claim C4 witness: on the concrete zero-scroll session, scrolling to
`scrollTop = 50` with `scrollLeft` unchanged raises the cursor y by 50 and
leaves the cursor x alone. -/
theorem trackScroll_cursor_delta_witness :
    (trackScroll 0 50 demoSession).currentY = demoSession.currentY + 50 ∧
    (trackScroll 0 50 demoSession).currentX = demoSession.currentX :=
  (trackScroll_cursor_delta demoSession 0 50).2.2.2.2 rfl rfl rfl

/-- Claim C9: `trackResize` mutates only windowWidth, windowHeight and
positionCompensation (scroll offsets, cursor and the tracking flag are
unchanged), and `trackScroll` mutates only scrollLeft, scrollTop, currentX,
currentY (window metrics, compensation and the flag are unchanged);
moreover `trackScroll` leaves the cached offset and the cursor of any axis
whose newly read value equals the cached one untouched. -/
theorem tracker_frame (ww wh : Int) (g : BodyGeometry) (s : Session)
    (x y : Int) :
    (trackResize ww wh g s).scrollLeft = s.scrollLeft ∧
    (trackResize ww wh g s).scrollTop = s.scrollTop ∧
    (trackResize ww wh g s).currentX = s.currentX ∧
    (trackResize ww wh g s).currentY = s.currentY ∧
    (trackResize ww wh g s).mouseTrackingActive = s.mouseTrackingActive ∧
    (trackScroll x y s).windowWidth = s.windowWidth ∧
    (trackScroll x y s).windowHeight = s.windowHeight ∧
    (trackScroll x y s).positionCompensation = s.positionCompensation ∧
    (trackScroll x y s).mouseTrackingActive = s.mouseTrackingActive ∧
    (x = s.scrollLeft →
      (trackScroll x y s).scrollLeft = s.scrollLeft ∧
      (trackScroll x y s).currentX = s.currentX) ∧
    (y = s.scrollTop →
      (trackScroll x y s).scrollTop = s.scrollTop ∧
      (trackScroll x y s).currentY = s.currentY) := by
  simp only [trackScroll, trackResize]
  split_ifs with h1 h2 h2 <;> simp_all

/-- Claim C9 witness: the frame conditions instantiated on the concrete
session with both scroll axes unchanged. -/
theorem tracker_frame_witness :
    (trackScroll 0 0 demoSession).scrollLeft = demoSession.scrollLeft ∧
    (trackScroll 0 0 demoSession).currentX = demoSession.currentX ∧
    (trackScroll 0 0 demoSession).scrollTop = demoSession.scrollTop ∧
    (trackScroll 0 0 demoSession).currentY = demoSession.currentY ∧
    (trackResize 640 480 demoEnv.body demoSession).currentX =
      demoSession.currentX := by
  have h := tracker_frame 640 480 demoEnv.body demoSession 0 0
  exact ⟨(h.2.2.2.2.2.2.2.2.2.1 rfl).1, (h.2.2.2.2.2.2.2.2.2.1 rfl).2,
    (h.2.2.2.2.2.2.2.2.2.2 rfl).1, (h.2.2.2.2.2.2.2.2.2.2 rfl).2,
    h.2.2.1⟩

/-- Claim C7: `initTracking` is idempotent: running it twice from any state
yields exactly the same state (session and registered listeners) as running
it once; after one run the tracking-active flag is set, and a run from a
state whose flag is already set is a no-op. -/
theorem initTracking_idempotent (env : DomEnv) (st : TrackingState) :
    initTracking env (initTracking env st) = initTracking env st ∧
    (initTracking env st).session.mouseTrackingActive = true ∧
    (st.session.mouseTrackingActive = true → initTracking env st = st) := by
  by_cases h : st.session.mouseTrackingActive <;>
    simp_all [initTracking, getViewportDimensions]

/-- Claim C7 witness: on a state whose tracking flag is already set,
`initTracking` is a no-op. -/
theorem initTracking_idempotent_witness :
    initTracking demoEnv
        { session := collisionDemoSession, listeners := [] } =
      { session := collisionDemoSession, listeners := [] } :=
  (initTracking_idempotent demoEnv
    { session := collisionDemoSession, listeners := [] }).2.2 rfl

/-- Spec-side definition, following the spec's words for the bottom
compensation offset: the formula symmetric to the right formula, i.e.
`(outerHeightWithMargin - outerHeightWithoutMargin - (top - containerPositionTop))
+ (windowHeight - outerHeightWithMargin - containerPositionTop)`.  To be
compared with the embedded `computePositionCompensation`. -/
def specSymmetricBottom (windowHeight : Int) (g : BodyGeometry) : Int :=
  (g.outerHeightMargin - g.outerHeight - (g.offsetTop - g.positionTop)) +
    (windowHeight - g.outerHeightMargin - g.positionTop)

/-- A relatively positioned body whose `position()` top (5) differs from its
`offset()` top (10), separating the code's bottom formula from the spec's
symmetric one. -/
def bottomDemoGeometry : BodyGeometry :=
  { cssPosition := .relative
    offsetTop := 10
    offsetLeft := 0
    positionTop := 5
    positionLeft := 0
    outerWidth := 900
    outerHeight := 100
    outerWidthMargin := 920
    outerHeightMargin := 120 }

/-- Claim C3 counterexample: on a relatively positioned body with
`offset().top = 10` and `position().top = 5`, the bottom offset computed by
the code (685 for an 800px window) differs from the spec's symmetric
formula (690): the code subtracts the full `offsets.top` in the first term,
not `offsets.top - position().top`. -/
theorem computePositionCompensation_bottom_not_symmetric :
    (computePositionCompensation 1000 800 bottomDemoGeometry).bottom ≠
      specSymmetricBottom 800 bottomDemoGeometry := by
  decide

/-- Claim C3 (amended): for an absolutely, fixed or relatively positioned
body, the bottom compensation offset is
`(outerHeightWithMargin - outerHeightWithoutMargin - top) +
(windowHeight - outerHeightWithMargin - containerPositionTop)` — the first
term subtracts the container's full document offset `top` rather than
`top - containerPositionTop`, so the formula is not fully symmetric to the
right one. -/
theorem computePositionCompensation_bottom_eq (ww wh : Int)
    (g : BodyGeometry)
    (h : g.cssPosition = .absolute ∨ g.cssPosition = .fixed ∨
      g.cssPosition = .relative) :
    (computePositionCompensation ww wh g).bottom =
      (g.outerHeightMargin - g.outerHeight - g.offsetTop) +
        (wh - g.outerHeightMargin - g.positionTop) := by
  rcases h with h | h | h <;> simp [computePositionCompensation, h]

/-- Claim C3 witness: the amended bottom formula evaluated on the concrete
relatively positioned body. -/
theorem computePositionCompensation_bottom_eq_witness :
    (computePositionCompensation 1000 800 bottomDemoGeometry).bottom =
      (bottomDemoGeometry.outerHeightMargin -
          bottomDemoGeometry.outerHeight - bottomDemoGeometry.offsetTop) +
        (800 - bottomDemoGeometry.outerHeightMargin -
          bottomDemoGeometry.positionTop) :=
  computePositionCompensation_bottom_eq 1000 800 bottomDemoGeometry
    (Or.inr (Or.inr rfl))

theorem land_odd_even (a b : Nat) : (2 * a + 1) &&& (2 * b) = 2 * (a &&& b) := by
  apply Nat.eq_of_testBit_eq
  intro i
  cases i with
  | zero =>
      simp [Nat.testBit_and, Nat.testBit_zero, Nat.mul_mod_right]
  | succ i =>
      rw [Nat.testBit_and]
      have ha : (2 * a + 1) / 2 = a := by omega
      have hb : 2 * b / 2 = b := by omega
      have hc : 2 * (a &&& b) / 2 = a &&& b := by omega
      simp [Nat.testBit_succ, ha, hb, hc, Nat.testBit_and]

theorem land_even_odd (a b : Nat) : (2 * a) &&& (2 * b + 1) = 2 * (a &&& b) := by
  rw [Nat.land_comm, land_odd_even, Nat.land_comm]

theorem popCount_two_mul (a : Nat) : popCount (2 * a) = popCount a := by
  by_cases h : a = 0
  · subst h; simp
  · have h2 : 2 * a % 2 = 0 := by omega
    have h3 : 2 * a / 2 = a := by omega
    rw [popCount, dif_neg (by omega : ¬2 * a = 0), h2, h3, Nat.zero_add]

theorem popCount_two_mul_add_one (a : Nat) :
    popCount (2 * a + 1) = popCount a + 1 := by
  have h2 : (2 * a + 1) % 2 = 1 := by omega
  have h3 : (2 * a + 1) / 2 = a := by omega
  rw [popCount, dif_neg (by omega : ¬2 * a + 1 = 0), h2, h3, Nat.add_comm]

theorem popCount_land_pred (v : Nat) (hv : v ≠ 0) :
    popCount (v &&& (v - 1)) + 1 = popCount v := by
  induction v using Nat.strong_induction_on with
  | _ v ih =>
    rcases Nat.even_or_odd v with ⟨w, hw⟩ | ⟨w, hw⟩
    · have hw2 : v = 2 * w := by omega
      have hwpos : w ≠ 0 := by omega
      have hsub : v - 1 = 2 * (w - 1) + 1 := by omega
      have h1 : v &&& (v - 1) = 2 * (w &&& (w - 1)) := by
        rw [hsub, hw2]; exact land_even_odd w (w - 1)
      rw [h1, popCount_two_mul, ih w (by omega) hwpos, hw2, popCount_two_mul]
    · have hsub : v - 1 = 2 * w := by omega
      have h1 : v &&& (v - 1) = 2 * w := by
        rw [hsub, hw, land_odd_even, Nat.and_self]
      rw [h1, popCount_two_mul, hw, popCount_two_mul_add_one]

theorem countFlags_eq_popCount (v : Nat) : countFlags v = popCount v := by
  induction v using Nat.strong_induction_on with
  | _ v ih =>
    by_cases h : v = 0
    · subst h; simp [countFlags, popCount]
    · have hlt : v &&& (v - 1) < v :=
        Nat.lt_of_le_of_lt Nat.and_le_right
          (Nat.sub_lt (Nat.pos_of_ne_zero h) Nat.one_pos)
      rw [countFlags, dif_neg h, ih (v &&& (v - 1)) hlt,
        popCount_land_pred v h]

/-- Claim C6: for every value in 0..15, `countFlags` agrees with the number
of set bits of the binary expansion (in particular `countFlags 0 = 0`,
`countFlags 5 = 2`, `countFlags 15 = 4`), the algorithm being the Kernighan
loop that repeatedly clears the lowest set bit and counts iterations. -/
theorem countFlags_counts_set_bits :
    (∀ v : Nat, v < 16 → countFlags v = popCount v) ∧
    countFlags 0 = 0 ∧ countFlags 5 = 2 ∧ countFlags 15 = 4 := by
  refine ⟨fun v _ => countFlags_eq_popCount v, by simp [countFlags], ?_, ?_⟩ <;>
    rw [countFlags_eq_popCount] <;> simp [popCount]

/-- Claim C6 witness: the agreement instantiated at the flag value 9. -/
theorem countFlags_counts_set_bits_witness : countFlags 9 = popCount 9 :=
  countFlags_counts_set_bits.1 9 (by decide)

/-- Claim C10: the Kernighan loop of `countFlags` terminates on every
nonnegative input: each iteration (`value &= value - 1`) strictly decreases
the number of set bits, and the loop runs exactly `popCount value` times,
returning that count. -/
theorem countFlags_terminates (v : Nat) :
    (v ≠ 0 → popCount (v &&& (v - 1)) < popCount v) ∧
    countFlags v = popCount v :=
  ⟨fun h => by have := popCount_land_pred v h; omega,
   countFlags_eq_popCount v⟩

/-- Claim C10 witness: the strict decrease and loop count instantiated at
the value 7. -/
theorem countFlags_terminates_witness :
    popCount (7 &&& (7 - 1)) < popCount 7 ∧ countFlags 7 = popCount 7 :=
  ⟨(countFlags_terminates 7).1 (by decide), (countFlags_terminates 7).2⟩

end PowerTip
